/-
Verification of the Windows Startup Configurator launch orchestrator
(`start_programs.py`), the autostart registration helper (`register_task.py`)
and the uninstaller (`uninstall.py`).

The Python code is shallowly embedded: JSON values are an inductive type,
external collaborators (environment-variable expansion, the process spawner
via `subprocess.Popen`, the toast notifier via `win10toast`, and the registry)
are modelled as oracles carried in an environment record, and the observable
side effects (console prints, toast calls, sleeps, spawn attempts, registry
writes and deletes) are recorded in an event trace.  Python exceptions are
modelled with `Option PyExc`: a function result of `some e` means the call
raised `e`, and callers propagate or catch exactly where the source does.
-/
import Mathlib

/-- JSON values as produced by Python's `json.load`.  Numbers are modelled as
rationals (the claims only inspect sign and zero-ness, never float rounding). -/
inductive JValue where
  | jnull : JValue
  | jbool : Bool → JValue
  | jnum : ℚ → JValue
  | jstr : String → JValue
  | jarr : List JValue → JValue
  | jobj : List (String × JValue) → JValue

/-- Python truthiness (`bool(v)`) of a JSON value. -/
def truthy : JValue → Bool
  | .jnull => false
  | .jbool b => b
  | .jnum q => q != 0
  | .jstr s => s != ""
  | .jarr l => !l.isEmpty
  | .jobj l => !l.isEmpty

/-- Python's `dict.get(k)` on a JSON object given as a key-value list. -/
def jget (p : List (String × JValue)) (k : String) : Option JValue :=
  (p.find? (fun kv => kv.1 == k)).map (fun kv => kv.2)

/-- Python's `str(v)` as used in f-string interpolation.  The rendering of
compound values is abstracted (no claim inspects it); strings render as
themselves, which is what every message in the source interpolates. -/
def pyStr : JValue → String
  | .jnull => "None"
  | .jbool true => "True"
  | .jbool false => "False"
  | .jnum q => toString q
  | .jstr s => s
  | .jarr _ => "[list]"
  | .jobj _ => "[dict]"

/-- The Python exceptions the embedded code can raise. -/
inductive PyExc where
  | typeError : String → PyExc
  | valueError : String → PyExc
  | attributeError : String → PyExc
  | runtimeError : String → PyExc
deriving Repr, DecidableEq

/-- `str(e)` of a modelled exception. -/
def PyExc.msg : PyExc → String
  | .typeError m => m
  | .valueError m => m
  | .attributeError m => m
  | .runtimeError m => m

/-- Outcome of one `subprocess.Popen([path])` call, decided by the
process-spawner oracle. -/
inductive SpawnOutcome where
  | ok : SpawnOutcome
  | fileNotFound : SpawnOutcome
  | otherErr : String → SpawnOutcome
deriving Repr, DecidableEq

/-- Observable side effects, recorded in order in a trace. -/
inductive Event where
  | log : String → Event
  | toast : String → String → Event
  | sleepEv : ℚ → Event
  | spawnEv : String → Event
  | inputEv : String → Event
  | regSet : String → String → Event
  | regDelete : String → Event
deriving Repr, DecidableEq

/-- Counters threaded through a run: how many spawner calls and how many
toast calls have been made so far (used to index the oracles). -/
structure St where
  spawns : Nat
  toasts : Nat
deriving Repr, DecidableEq

/-- One `ToastNotifier.show_toast` call: the toast-oracle entry for the
current call index is `none` on success and `some m` when the notifier
raises an exception with message `m`. -/
def show_toast (toastOut : Nat → Option String) (st : St) (title msg : String) :
    List Event × St × Option PyExc :=
  ([.toast title msg], ⟨st.spawns, st.toasts + 1⟩,
    (toastOut st.toasts).map (fun m => PyExc.runtimeError m))

/-- External collaborators of the launcher: `os.path.expandvars`, the
process spawner (indexed by spawn-call count), the toast notifier (indexed
by toast-call count) and the configured file name. -/
structure Env where
  expand : String → String
  spawnOut : Nat → SpawnOutcome
  toastOut : Nat → Option String
  configFile : String

/-- How the configuration source behaves when `read_config` opens and
parses it: the file may be missing, unparsable, fail with some other I/O
error, or parse to a JSON value. -/
inductive ConfigSource where
  | missing : ConfigSource
  | malformed : ConfigSource
  | ioError : String → ConfigSource
  | parsed : JValue → ConfigSource

namespace ProgramLauncher

/-- `ProgramLauncher.notify`: calls `show_toast` and swallows any exception,
printing it to the console instead. -/
def notify (env : Env) (st : St) (title msg : String) :
    List Event × St × Option PyExc :=
  let r := show_toast env.toastOut st title msg
  match r.2.2 with
  | none => (r.1, r.2.1, none)
  | some e => (r.1 ++ [.log ("Error showing notification: " ++ e.msg)], r.2.1, none)

/-- `ProgramLauncher.read_config`: opens and parses the configuration,
returning `config.get('Programs', [])` on success and `None` (after a
notification) on `FileNotFoundError`, `json.JSONDecodeError` or any other
exception — a top-level JSON value that is not an object makes
`config.get` raise `AttributeError`, caught by the generic handler. -/
def read_config (env : Env) (st : St) (src : ConfigSource) :
    List Event × St × Option JValue :=
  match src with
  | .missing =>
      let r := notify env st "Configuration Error"
        ("Configuration file " ++ env.configFile ++ " not found.")
      (r.1, r.2.1, none)
  | .malformed =>
      let r := notify env st "Configuration Error"
        ("Could not decode JSON from " ++ env.configFile ++ ". Check file format.")
      (r.1, r.2.1, none)
  | .ioError m =>
      let r := notify env st "Configuration Error"
        ("An unexpected error occurred: " ++ m)
      (r.1, r.2.1, none)
  | .parsed (.jobj kvs) => ([], st, some ((jget kvs "Programs").getD (.jarr [])))
  | .parsed _ =>
      let r := notify env st "Configuration Error"
        ("An unexpected error occurred: jvalue has no attribute get")
      (r.1, r.2.1, none)

/-- `ProgramLauncher.is_program_enabled`: `program.get('Enabled', True)` —
returns the raw stored value, defaulting to `True` only when the key is
absent. -/
def is_program_enabled (p : List (String × JValue)) : JValue :=
  (jget p "Enabled").getD (.jbool true)

/-- `ProgramLauncher.get_program_path`: `program.get('Path')`; a truthy value
is passed to `os.path.expandvars` (raising `TypeError` when it is not a
string), a falsy or absent one yields `None`. -/
def get_program_path (expand : String → String) (p : List (String × JValue)) :
    Except PyExc (Option String) :=
  match jget p "Path" with
  | none => .ok none
  | some v =>
      if truthy v then
        match v with
        | .jstr s => .ok (some (expand s))
        | _ => .error (.typeError "argument should be a str")
      else .ok none

/-- `ProgramLauncher.get_program_delay`: `program.get('Delay', 0)`. -/
def get_program_delay (p : List (String × JValue)) : JValue :=
  (jget p "Delay").getD (.jnum 0)

/-- `time.sleep(v)` on a JSON value: accepts numbers (and bools, which are
ints in Python), raises `ValueError` on a negative duration and `TypeError`
otherwise. -/
def sleepCheck : JValue → Except PyExc ℚ
  | .jnum q =>
      if 0 ≤ q then .ok q
      else .error (.valueError "sleep length must be non-negative")
  | .jbool b => .ok (if b then 1 else 0)
  | _ => .error (.typeError "an integer is required")

/-- `program.get('Name', 'Unknown Program')` rendered for messages. -/
def progName (p : List (String × JValue)) : String :=
  pyStr ((jget p "Name").getD (.jstr "Unknown Program"))

/-- `ProgramLauncher.launch_program`: resolve the path (skip with a report
when falsy), sleep for the configured delay, then attempt the spawn, catching
`FileNotFoundError` and any other exception from `Popen`.  Exceptions raised
outside the `try` (`expandvars` on a non-string, `time.sleep` on a negative
or non-numeric delay) propagate to the caller. -/
def launch_program (env : Env) (st : St) (p : List (String × JValue)) :
    List Event × St × Option PyExc :=
  let name := progName p
  match get_program_path env.expand p with
  | .error e => ([], st, some e)
  | .ok pathOpt =>
    let delay := get_program_delay p
    if (pathOpt.getD "") = "" then
      let r := notify env st "Launch Error"
        ("Path not specified for " ++ name ++ ". Skipping.")
      (.log ("Error: Path not specified for program " ++ name ++ ". Skipping.")
        :: r.1, r.2.1, none)
    else
      let path := pathOpt.getD ""
      let waitLog := Event.log ("Waiting for " ++ pyStr delay ++
        " seconds before launching " ++ name ++ "...")
      match sleepCheck delay with
      | .error e => ([waitLog], st, some e)
      | .ok dq =>
        let launchLog := Event.log ("Launching " ++ name ++ " from " ++ path ++ "...")
        let st1 : St := ⟨st.spawns + 1, st.toasts⟩
        match env.spawnOut st.spawns with
        | .ok =>
            let r := notify env st1 "Program Launched"
              (name ++ " launched successfully.")
            ([waitLog, .sleepEv dq, launchLog, .spawnEv path] ++ r.1, r.2.1, none)
        | .fileNotFound =>
            let r := notify env st1 "Launch Error"
              ("Program file not found for " ++ name ++ ". Skipping.")
            ([waitLog, .sleepEv dq, launchLog, .spawnEv path,
              .log ("Error: Program file not found at " ++ path ++ ". Skipping.")]
              ++ r.1, r.2.1, none)
        | .otherErr m =>
            let r := notify env st1 "Launch Error"
              ("An unexpected error occurred while launching " ++ name ++ ": " ++ m)
            ([waitLog, .sleepEv dq, launchLog, .spawnEv path,
              .log ("An unexpected error occurred while launching " ++ name ++ ": " ++ m)]
              ++ r.1, r.2.1, none)

/-- The `for program in config` loop body of `ProgramLauncher.run`, iterated
over the element list: a non-object element makes `program.get` raise
`AttributeError`, which propagates; otherwise the enabled/disabled branch of
the source loop runs and processing continues with the rest. -/
def runLoop (env : Env) : List JValue → St → List Event × St × Option PyExc
  | [], st => ([], st, none)
  | .jobj p :: rest, st =>
      if truthy (is_program_enabled p) then
        let r := launch_program env st p
        match r.2.2 with
        | some e => (r.1, r.2.1, some e)
        | none =>
            let r2 := runLoop env rest r.2.1
            (r.1 ++ r2.1, r2.2.1, r2.2.2)
      else
        let name := progName p
        let r1 := notify env st "Startup Configurator"
          (name ++ " is disabled. Skipping.")
        let r2 := runLoop env rest r1.2.1
        (.log ("Program " ++ name ++ " is disabled. Skipping.") :: r1.1 ++ r2.1,
          r2.2.1, r2.2.2)
  | _ :: _, st => ([], st, some (.attributeError "jvalue has no attribute get"))

/-- Python's `for x in v`: lists yield their elements, strings their
characters, dicts their keys; numbers, booleans and `None` are not
iterable. -/
def iterElems : JValue → Except PyExc (List JValue)
  | .jarr l => .ok l
  | .jstr s => .ok (s.toList.map (fun c => .jstr (String.mk [c])))
  | .jobj kvs => .ok (kvs.map (fun kv => JValue.jstr kv.1))
  | _ => .error (.typeError "object is not iterable")

/-- `ProgramLauncher.run`: announce the start, read the configuration, abort
(normally) when it could not be read, report when it is falsy (empty), and
otherwise iterate the descriptors in order, finishing with a terminal
notification.  An exception escaping the loop propagates to the caller. -/
def run (env : Env) (st : St) (src : ConfigSource) :
    List Event × St × Option PyExc :=
  let startLog := Event.log "Windows Startup Configurator: Starting program launch..."
  let r1 := notify env st "Startup Configurator" "Starting program launch..."
  let rc := read_config env r1.2.1 src
  match rc.2.2 with
  | none =>
      let r3 := notify env rc.2.1 "Startup Configurator"
        "Failed to read configuration. Aborting."
      (startLog :: r1.1 ++ rc.1 ++
        (.log "Failed to read configuration. Aborting." :: r3.1), r3.2.1, none)
  | some cfgv =>
      if truthy cfgv then
        match iterElems cfgv with
        | .error e => (startLog :: r1.1 ++ rc.1, rc.2.1, some e)
        | .ok elems =>
          let rl := runLoop env elems rc.2.1
          match rl.2.2 with
          | some e => (startLog :: r1.1 ++ rc.1 ++ rl.1, rl.2.1, some e)
          | none =>
              let r4 := notify env rl.2.1 "Startup Configurator"
                "Program launch finished."
              (startLog :: r1.1 ++ rc.1 ++ rl.1 ++
                (.log "Windows Startup Configurator: Program launch finished." :: r4.1),
                r4.2.1, none)
      else
        let r3 := notify env rc.2.1 "Startup Configurator"
          "No programs found in configuration."
        (startLog :: r1.1 ++ rc.1 ++
          (.log "No programs found in the configuration file." :: r3.1), r3.2.1, none)

end ProgramLauncher

/-- Outcome of the registry operations performed under one `try`: `none`
means open/set/close all succeeded, `some m` means one of them raised with
message `m`. -/
structure RegEnv where
  toastOut : Nat → Option String
  regFail : Option String

namespace AutostartManager

/-- `AutostartManager._show_notification`: a bare `show_toast` call with no
exception handling — a notifier failure propagates to the caller. -/
def show_notification (env : RegEnv) (st : St) (title msg : String) :
    List Event × St × Option PyExc :=
  show_toast env.toastOut st title msg

/-- `AutostartManager._show_error`: prefixes the title and delegates to
`_show_notification` (so it, too, can raise). -/
def show_error (env : RegEnv) (st : St) (title msg : String) :
    List Event × St × Option PyExc :=
  show_notification env st ("Error: " ++ title) msg

/-- `AutostartManager.register`: writes the quoted command to the Run key and
shows a success notification, returning `True`; any exception in that block —
including one raised by the success notification itself — is caught, reported
via `_show_error`, and turns the result into `False`.  An exception raised by
`_show_error` propagates (result `none`). -/
def register (env : RegEnv) (st : St) (path : String) :
    List Event × St × Option PyExc × Option Bool :=
  let command := "\"" ++ path ++ "\""
  match env.regFail with
  | some m =>
      let r := show_error env st "Registration Error"
        ("Failed to register program: " ++ m)
      match r.2.2 with
      | none => (r.1, r.2.1, none, some false)
      | some e => (r.1, r.2.1, some e, none)
  | none =>
      let wrote := Event.regSet "WindowsStartupConfigurator" command
      let r := show_notification env st "Registration Successful"
        "Program registered for autostart"
      match r.2.2 with
      | none => (wrote :: r.1, r.2.1, none, some true)
      | some e =>
          let r2 := show_error env r.2.1 "Registration Error"
            ("Failed to register program: " ++ e.msg)
          match r2.2.2 with
          | none => (wrote :: r.1 ++ r2.1, r2.2.1, none, some false)
          | some e2 => (wrote :: r.1 ++ r2.1, r2.2.1, some e2, none)

end AutostartManager

/-- Outcome of `winreg.DeleteValue` (together with the surrounding open and
close) in the uninstaller: success, `FileNotFoundError` when no value with
the application's name exists, or any other exception. -/
inductive DeleteOutcome where
  | ok : DeleteOutcome
  | notFound : DeleteOutcome
  | otherErr : String → DeleteOutcome
deriving Repr, DecidableEq

/-- External collaborators of the uninstaller. -/
structure UEnv where
  toastOut : Nat → Option String
  deleteOut : DeleteOutcome

namespace Uninstaller

/-- `Uninstaller.notify`: like the launcher's notify, swallows any notifier
exception and prints it instead. -/
def notify (env : UEnv) (st : St) (title msg : String) :
    List Event × St × Option PyExc :=
  let r := show_toast env.toastOut st title msg
  match r.2.2 with
  | none => (r.1, r.2.1, none)
  | some e => (r.1 ++ [.log ("Error showing notification: " ++ e.msg)], r.2.1, none)

/-- `Uninstaller.unregister_autostart`: deletes the Run-key value, catching
`FileNotFoundError` (entry absent — report and return) and any other
exception (report and return); no exception escapes. -/
def unregister_autostart (env : UEnv) (st : St) :
    List Event × St × Option PyExc :=
  match env.deleteOut with
  | .ok =>
      let r := notify env st "Autostart Uninstallation"
        "WindowsStartupConfigurator unregistered successfully from autostart."
      (.regDelete "WindowsStartupConfigurator"
        :: .log "Successfully unregistered WindowsStartupConfigurator from autostart."
        :: r.1, r.2.1, none)
  | .notFound =>
      let r := notify env st "Autostart Uninstallation"
        "Autostart entry for WindowsStartupConfigurator not found. Nothing to uninstall."
      (.log "Autostart entry for WindowsStartupConfigurator not found in registry. Nothing to uninstall."
        :: r.1, r.2.1, none)
  | .otherErr m =>
      let r := notify env st "Autostart Uninstallation"
        ("Failed to unregister WindowsStartupConfigurator from autostart: " ++ m)
      (.log ("Error unregistering from autostart: " ++ m) :: r.1, r.2.1, none)

end Uninstaller

/-- `start_programs.main`: runs the launcher, catching every exception,
printing a diagnostic and waiting for Enter; the interpreter then exits
with code 0 on every path.  The result is (trace, final state, exit code). -/
def startProgramsMain (env : Env) (st : St) (src : ConfigSource) :
    List Event × St × Nat :=
  let r := ProgramLauncher.run env st src
  match r.2.2 with
  | none => (r.1, r.2.1, 0)
  | some e =>
      (r.1 ++ [.log ("Fatal error: " ++ e.msg), .inputEv "Press Enter to exit..."],
        r.2.1, 0)

/-- The spawn attempts recorded in a trace, in order, by target path. -/
def spawnEvsOf (evs : List Event) : List String :=
  evs.filterMap fun e => match e with | .spawnEv p => some p | _ => none

/-- The sleeps recorded in a trace, in order. -/
def sleepEvsOf (evs : List Event) : List ℚ :=
  evs.filterMap fun e => match e with | .sleepEv d => some d | _ => none

/-- A descriptor conforming to the specification's data model (§3): a JSON
object whose `Name` and `Path`, when present, are strings, whose `Delay`,
when present, is a non-negative number, and whose `Enabled`, when present,
is a boolean. -/
def conformsProg : JValue → Bool
  | .jobj p =>
      (match jget p "Name" with
        | none => true | some (.jstr _) => true | some _ => false) &&
      (match jget p "Path" with
        | none => true | some (.jstr _) => true | some _ => false) &&
      (match jget p "Delay" with
        | none => true | some (.jnum q) => decide (0 ≤ q) | some _ => false) &&
      (match jget p "Enabled" with
        | none => true | some (.jbool _) => true | some _ => false)
  | _ => false

/-- The spawn target of one descriptor: the expanded path when `Path` is a
non-empty string whose expansion is non-empty, and nothing otherwise. -/
def progTarget (expand : String → String) (p : List (String × JValue)) :
    Option String :=
  match jget p "Path" with
  | some (.jstr s) => if s ≠ "" ∧ expand s ≠ "" then some (expand s) else none
  | _ => none

/-- The spawn targets a descriptor list should produce, in configuration
order: one entry per enabled descriptor whose `Path` is a non-empty string
that expands to a non-empty string, carrying the expanded path. -/
def spawnTargets (expand : String → String) (l : List JValue) : List String :=
  l.filterMap fun v =>
    match v with
    | .jobj p =>
        if truthy (ProgramLauncher.is_program_enabled p) then progTarget expand p
        else none
    | _ => none

/-- `read_config` fails (returns `None`) exactly when the source is missing,
unparsable, raises another I/O error, or parses to a non-object (on which
`config.get` raises, caught by the generic handler). -/
def readFails : ConfigSource → Bool
  | .missing => true
  | .malformed => true
  | .ioError _ => true
  | .parsed (.jobj _) => false
  | .parsed _ => true

/-- Test fixture: identity expansion, all spawns succeed, notifier never
fails. -/
def idEnv : Env := ⟨id, fun _ => .ok, fun _ => none, "config.json"⟩

/-- Test fixture: identity expansion, every spawn fails with
`FileNotFoundError`. -/
def failSpawnEnv : Env := ⟨id, fun _ => .fileNotFound, fun _ => none, "config.json"⟩

/-- Test fixture: fresh counters. -/
def st0 : St := ⟨0, 0⟩

/-- Test fixture: a fully specified enabled descriptor. -/
def progAFields : List (String × JValue) :=
  [("Name", .jstr "A"), ("Path", .jstr "C:\\a.exe"), ("Delay", .jnum 2),
    ("Enabled", .jbool true)]

/-- Test fixture: an enabled descriptor relying on the defaults. -/
def progBFields : List (String × JValue) :=
  [("Name", .jstr "B"), ("Path", .jstr "C:\\b.exe")]

/-- Test fixture: `progAFields` as a JSON value. -/
def progA : JValue := .jobj progAFields

/-- Test fixture: `progBFields` as a JSON value. -/
def progB : JValue := .jobj progBFields

/-- Test fixture: a descriptor with `Enabled: false`. -/
def progDisFields : List (String × JValue) :=
  [("Name", .jstr "D"), ("Enabled", .jbool false)]

/-- Test fixture: an enabled descriptor with no `Path` key. -/
def progNoPathFields : List (String × JValue) :=
  [("Name", .jstr "C"), ("Enabled", .jbool true)]

/-- Test fixture: a descriptor with `Enabled: null`. -/
def progNullFields : List (String × JValue) :=
  [("Name", .jstr "N"), ("Enabled", .jnull)]

/-- Test fixture: a parsed top-level object with two programs. -/
def cfgAB : List (String × JValue) := [("Programs", .jarr [progA, progB])]

/-- Test fixture: a parsed top-level object with no `Programs` key. -/
def cfgNoProgs : List (String × JValue) := [("Other", .jstr "x")]

/-- Test fixture: a configuration whose `Programs` list holds a bare number,
on which the loop body's `program.get` raises `AttributeError`. -/
def badCfg : ConfigSource := .parsed (.jobj [("Programs", .jarr [.jnum 1])])

/-- Test fixture: uninstaller environment where the registry value is
absent. -/
def uNotFoundEnv : UEnv := ⟨fun _ => none, .notFound⟩

/-- Test fixture: registration environment where registry and notifier both
succeed. -/
def regOkEnv : RegEnv := ⟨fun _ => none, none⟩

/-- Test fixture: registry succeeds but the first toast call raises. -/
def regNotifyFailEnv : RegEnv :=
  ⟨fun n => if n = 0 then some "toast failed" else none, none⟩

/-- Test fixture: registry succeeds but every toast call raises. -/
def regNotifyAllFailEnv : RegEnv := ⟨fun _ => some "toast failed", none⟩

theorem spawnEvsOf_nil : spawnEvsOf [] = [] := rfl

theorem spawnEvsOf_cons (e : Event) (evs : List Event) :
    spawnEvsOf (e :: evs) =
      (match e with | .spawnEv p => [p] | _ => []) ++ spawnEvsOf evs := by
  cases e <;> simp [spawnEvsOf]

theorem spawnEvsOf_append (a b : List Event) :
    spawnEvsOf (a ++ b) = spawnEvsOf a ++ spawnEvsOf b := by
  simp [spawnEvsOf]

theorem spawnEvsOf_notify (env : Env) (st : St) (t m : String) :
    spawnEvsOf (ProgramLauncher.notify env st t m).1 = [] := by
  unfold ProgramLauncher.notify show_toast
  cases h : env.toastOut st.toasts <;> simp [h, spawnEvsOf]

theorem spawnEv_not_mem_notify (env : Env) (st : St) (t m pth : String) :
    Event.spawnEv pth ∉ (ProgramLauncher.notify env st t m).1 := by
  unfold ProgramLauncher.notify show_toast
  cases h : env.toastOut st.toasts <;> simp [h]

theorem sleepEvsOf_cons (e : Event) (evs : List Event) :
    sleepEvsOf (e :: evs) =
      (match e with | .sleepEv d => [d] | _ => []) ++ sleepEvsOf evs := by
  cases e <;> simp [sleepEvsOf]

theorem sleepEvsOf_notify (env : Env) (st : St) (t m : String) :
    sleepEvsOf (ProgramLauncher.notify env st t m).1 = [] := by
  unfold ProgramLauncher.notify show_toast
  cases h : env.toastOut st.toasts <;> simp [h, sleepEvsOf]

theorem toast_mem_notify (env : Env) (st : St) (t m : String) :
    Event.toast t m ∈ (ProgramLauncher.notify env st t m).1 := by
  unfold ProgramLauncher.notify show_toast
  cases h : env.toastOut st.toasts <;> simp [h]

theorem launch_program_exc_none (env : Env) (st : St) (p : List (String × JValue))
    (h : conformsProg (.jobj p) = true) :
    (ProgramLauncher.launch_program env st p).2.2 = none := by
  simp only [conformsProg, Bool.and_eq_true] at h
  obtain ⟨⟨⟨-, hpath⟩, hdelay⟩, -⟩ := h
  unfold ProgramLauncher.launch_program
  cases hp : jget p "Path" with
  | none =>
      simp [ProgramLauncher.get_program_path, hp]
  | some v =>
      rw [hp] at hpath
      cases v with
      | jnull => simp at hpath
      | jbool b => simp at hpath
      | jnum q => simp at hpath
      | jarr l => simp at hpath
      | jobj o => simp at hpath
      | jstr s =>
        by_cases hs : s = ""
        · subst hs; simp [ProgramLauncher.get_program_path, hp, truthy]
        · simp only [ProgramLauncher.get_program_path, hp, truthy]
          by_cases he : env.expand s = ""
          · simp [hs, he]
          · simp only [bne_iff_ne, ne_eq, hs, not_false_iff, if_true, Option.getD_some, he,
              if_false]
            cases hd : jget p "Delay" with
            | none =>
                simp only [ProgramLauncher.get_program_delay, hd, Option.getD_none,
                  ProgramLauncher.sleepCheck, le_refl, if_true]
                cases hsp : env.spawnOut st.spawns <;> simp [hsp]
            | some dv =>
                rw [hd] at hdelay
                cases dv with
                | jnull => simp at hdelay
                | jbool b => simp at hdelay
                | jstr s2 => simp at hdelay
                | jarr l => simp at hdelay
                | jobj o => simp at hdelay
                | jnum q =>
                  simp only [decide_eq_true_eq] at hdelay
                  simp only [ProgramLauncher.get_program_delay, hd, Option.getD_some,
                    ProgramLauncher.sleepCheck, hdelay, if_true]
                  cases hsp : env.spawnOut st.spawns <;> simp [hsp]

theorem launch_program_spawnEvs (env : Env) (st : St) (p : List (String × JValue))
    (h : conformsProg (.jobj p) = true) :
    spawnEvsOf (ProgramLauncher.launch_program env st p).1 =
      (progTarget env.expand p).toList := by
  simp only [conformsProg, Bool.and_eq_true] at h
  obtain ⟨⟨⟨-, hpath⟩, hdelay⟩, -⟩ := h
  unfold ProgramLauncher.launch_program
  cases hp : jget p "Path" with
  | none =>
      simp [ProgramLauncher.get_program_path, hp, progTarget, spawnEvsOf_cons,
        spawnEvsOf_notify]
  | some v =>
      rw [hp] at hpath
      cases v with
      | jnull => simp at hpath
      | jbool b => simp at hpath
      | jnum q => simp at hpath
      | jarr l => simp at hpath
      | jobj o => simp at hpath
      | jstr s =>
        by_cases hs : s = ""
        · subst hs
          simp [ProgramLauncher.get_program_path, hp, truthy, progTarget,
            spawnEvsOf_cons, spawnEvsOf_notify]
        · simp only [ProgramLauncher.get_program_path, hp, truthy]
          by_cases he : env.expand s = ""
          · simp [hs, he, hp, progTarget, spawnEvsOf_cons, spawnEvsOf_notify]
          · simp only [bne_iff_ne, ne_eq, hs, not_false_iff, if_true, Option.getD_some, he,
              if_false]
            have htarget : progTarget env.expand p = some (env.expand s) := by
              simp [progTarget, hp, hs, he]
            cases hd : jget p "Delay" with
            | none =>
                simp only [ProgramLauncher.get_program_delay, hd, Option.getD_none,
                  ProgramLauncher.sleepCheck, le_refl, if_true]
                cases hsp : env.spawnOut st.spawns <;>
                  simp [hsp, htarget, spawnEvsOf_cons, spawnEvsOf_append, spawnEvsOf_nil,
                    spawnEvsOf_notify]
            | some dv =>
                rw [hd] at hdelay
                cases dv with
                | jnull => simp at hdelay
                | jbool b => simp at hdelay
                | jstr s2 => simp at hdelay
                | jarr l => simp at hdelay
                | jobj o => simp at hdelay
                | jnum q =>
                  simp only [decide_eq_true_eq] at hdelay
                  simp only [ProgramLauncher.get_program_delay, hd, Option.getD_some,
                    ProgramLauncher.sleepCheck, hdelay, if_true]
                  cases hsp : env.spawnOut st.spawns <;>
                    simp [hsp, htarget, spawnEvsOf_cons, spawnEvsOf_append, spawnEvsOf_nil,
                      spawnEvsOf_notify]

theorem runLoop_exc_none (env : Env) (l : List JValue)
    (hconf : ∀ v ∈ l, conformsProg v = true) :
    ∀ st, (ProgramLauncher.runLoop env l st).2.2 = none := by
  induction l with
  | nil => intro st; rfl
  | cons x t ih =>
    intro st
    have hx := hconf x (List.mem_cons_self x t)
    have ht : ∀ v ∈ t, conformsProg v = true :=
      fun v hv => hconf v (List.mem_cons_of_mem x hv)
    cases x with
    | jobj p =>
      simp only [ProgramLauncher.runLoop]
      by_cases hen : truthy (ProgramLauncher.is_program_enabled p) = true
      · simp only [hen, if_true, launch_program_exc_none env st p hx]
        exact ih ht _
      · simp only [hen, if_false]
        exact ih ht _
    | jnull => simp [conformsProg] at hx
    | jbool b => simp [conformsProg] at hx
    | jnum q => simp [conformsProg] at hx
    | jstr s => simp [conformsProg] at hx
    | jarr a => simp [conformsProg] at hx

theorem runLoop_append (env : Env) (l₁ l₂ : List JValue)
    (hconf : ∀ v ∈ l₁, conformsProg v = true) :
    ∀ st, (ProgramLauncher.runLoop env (l₁ ++ l₂) st).1 =
      (ProgramLauncher.runLoop env l₁ st).1 ++
        (ProgramLauncher.runLoop env l₂ (ProgramLauncher.runLoop env l₁ st).2.1).1 := by
  induction l₁ with
  | nil => intro st; simp [ProgramLauncher.runLoop]
  | cons x t ih =>
    intro st
    have hx := hconf x (List.mem_cons_self x t)
    have ht : ∀ v ∈ t, conformsProg v = true :=
      fun v hv => hconf v (List.mem_cons_of_mem x hv)
    cases x with
    | jobj p =>
      simp only [List.cons_append, ProgramLauncher.runLoop]
      by_cases hen : truthy (ProgramLauncher.is_program_enabled p) = true
      · simp only [hen, if_true, launch_program_exc_none env st p hx]
        simp [ih ht]
      · simp only [hen, if_false]
        simp [ih ht]
    | jnull => simp [conformsProg] at hx
    | jbool b => simp [conformsProg] at hx
    | jnum q => simp [conformsProg] at hx
    | jstr s => simp [conformsProg] at hx
    | jarr a => simp [conformsProg] at hx

theorem runLoop_spawnEvs (env : Env) (l : List JValue)
    (hconf : ∀ v ∈ l, conformsProg v = true) :
    ∀ st, spawnEvsOf (ProgramLauncher.runLoop env l st).1 =
      spawnTargets env.expand l := by
  induction l with
  | nil => intro st; rfl
  | cons x t ih =>
    intro st
    have hx := hconf x (List.mem_cons_self x t)
    have ht : ∀ v ∈ t, conformsProg v = true :=
      fun v hv => hconf v (List.mem_cons_of_mem x hv)
    cases x with
    | jobj p =>
      simp only [ProgramLauncher.runLoop, spawnTargets, List.filterMap_cons]
      by_cases hen : truthy (ProgramLauncher.is_program_enabled p) = true
      · simp only [hen, if_true, launch_program_exc_none env st p hx]
        simp only [spawnEvsOf_append, launch_program_spawnEvs env st p hx, ih ht]
        cases htg : progTarget env.expand p <;> simp [spawnTargets]
      · simp only [hen, if_false]
        simp [spawnEvsOf_cons, spawnEvsOf_append, spawnEvsOf_notify env st, ih ht,
          spawnTargets]
    | jnull => simp [conformsProg] at hx
    | jbool b => simp [conformsProg] at hx
    | jnum q => simp [conformsProg] at hx
    | jstr s => simp [conformsProg] at hx
    | jarr a => simp [conformsProg] at hx

theorem runLoop_disabled (env : Env) (st : St) (p : List (String × JValue))
    (rest : List JValue)
    (hen : truthy (ProgramLauncher.is_program_enabled p) = false) :
    ∃ evs st₁,
      ProgramLauncher.runLoop env (.jobj p :: rest) st =
        (evs ++ (ProgramLauncher.runLoop env rest st₁).1,
         (ProgramLauncher.runLoop env rest st₁).2.1,
         (ProgramLauncher.runLoop env rest st₁).2.2) ∧
      spawnEvsOf evs = [] ∧ sleepEvsOf evs = [] ∧
      Event.log ("Program " ++ ProgramLauncher.progName p ++ " is disabled. Skipping.")
        ∈ evs ∧
      Event.toast "Startup Configurator"
        (ProgramLauncher.progName p ++ " is disabled. Skipping.") ∈ evs := by
  refine ⟨Event.log ("Program " ++ ProgramLauncher.progName p ++ " is disabled. Skipping.")
      :: (ProgramLauncher.notify env st "Startup Configurator"
        (ProgramLauncher.progName p ++ " is disabled. Skipping.")).1,
    (ProgramLauncher.notify env st "Startup Configurator"
        (ProgramLauncher.progName p ++ " is disabled. Skipping.")).2.1, ?_, ?_, ?_, ?_, ?_⟩
  · simp only [ProgramLauncher.runLoop, hen, if_false]
    simp
  · simp [spawnEvsOf_cons, spawnEvsOf_notify]
  · simp [sleepEvsOf_cons, sleepEvsOf_notify]
  · simp
  · simp [toast_mem_notify]

/-- Claim C1: for every configuration whose `Programs` list is a non-empty
sequence of data-model-conforming descriptors, and for every behavior of the
process spawner and the notifier (so in particular when any spawn attempt
fails, with `FileNotFoundError` or otherwise), the run raises no exception,
the terminal finished notification is reached, and the launch loop processes
every suffix of the descriptor list in full after any prefix: a failure at
descriptor i never prevents descriptors i+1 and later from being
processed. -/
theorem run_isolates_descriptor_failures (env : Env) (st : St)
    (kvs : List (String × JValue)) (l : List JValue)
    (hprog : jget kvs "Programs" = some (.jarr l)) (hne : l ≠ [])
    (hconf : ∀ v ∈ l, conformsProg v = true) :
    (ProgramLauncher.run env st (.parsed (.jobj kvs))).2.2 = none ∧
    Event.toast "Startup Configurator" "Program launch finished."
      ∈ (ProgramLauncher.run env st (.parsed (.jobj kvs))).1 ∧
    ∀ st' l₁ l₂, l = l₁ ++ l₂ →
      (ProgramLauncher.runLoop env l st').1 =
        (ProgramLauncher.runLoop env l₁ st').1 ++
          (ProgramLauncher.runLoop env l₂
            (ProgramLauncher.runLoop env l₁ st').2.1).1 := by
  have htr : truthy (.jarr l) = true := by
    simp [truthy, List.isEmpty_eq_true, hne]
  have hexc := runLoop_exc_none env l hconf
  refine ⟨?_, ?_, ?_⟩
  · unfold ProgramLauncher.run
    simp only [ProgramLauncher.read_config, hprog, Option.getD_some, htr, if_true,
      ProgramLauncher.iterElems, hexc]
  · unfold ProgramLauncher.run
    simp only [ProgramLauncher.read_config, hprog, Option.getD_some, htr, if_true,
      ProgramLauncher.iterElems, hexc]
    simp [toast_mem_notify]
  · intro st' l₁ l₂ hsplit
    subst hsplit
    exact runLoop_append env l₁ l₂
      (fun v hv => hconf v (List.mem_append_left l₂ hv)) st'

theorem run_isolates_descriptor_failures_witness :
    [progA, progB] ≠ [] ∧
    (∀ v ∈ [progA, progB], conformsProg v = true) ∧
    (ProgramLauncher.run failSpawnEnv st0 (.parsed (.jobj cfgAB))).2.2 = none ∧
    Event.toast "Startup Configurator" "Program launch finished."
      ∈ (ProgramLauncher.run failSpawnEnv st0 (.parsed (.jobj cfgAB))).1 ∧
    (ProgramLauncher.runLoop failSpawnEnv [progA, progB] st0).1 =
      (ProgramLauncher.runLoop failSpawnEnv [progA] st0).1 ++
        (ProgramLauncher.runLoop failSpawnEnv [progB]
          (ProgramLauncher.runLoop failSpawnEnv [progA] st0).2.1).1 := by
  have h := run_isolates_descriptor_failures failSpawnEnv st0 cfgAB [progA, progB] rfl
    (List.cons_ne_nil _ _) (by decide)
  exact ⟨List.cons_ne_nil _ _, by decide, h.1, h.2.1, h.2.2 st0 [progA] [progB] rfl⟩

/-- Claim C2: for every configuration whose `Programs` list consists of
data-model-conforming descriptors, the sequence of spawn attempts made by
`run` equals `spawnTargets` of the configuration list: one attempt per
enabled descriptor with a resolvable path, in exactly the configuration
order, with no descriptor attempted twice (no retry) and none skipped. -/
theorem run_spawn_order_matches_config (env : Env) (st : St)
    (kvs : List (String × JValue)) (l : List JValue)
    (hprog : jget kvs "Programs" = some (.jarr l))
    (hconf : ∀ v ∈ l, conformsProg v = true) :
    spawnEvsOf (ProgramLauncher.run env st (.parsed (.jobj kvs))).1 =
      spawnTargets env.expand l := by
  unfold ProgramLauncher.run
  simp only [ProgramLauncher.read_config, hprog, Option.getD_some]
  by_cases hl : l = []
  · subst hl
    simp [truthy, spawnEvsOf_cons, spawnEvsOf_append, spawnEvsOf_notify, spawnTargets,
      spawnEvsOf_nil]
  · have htr : truthy (.jarr l) = true := by
      simp [truthy, List.isEmpty_eq_true, hl]
    simp only [htr, if_true, ProgramLauncher.iterElems]
    have hexc := runLoop_exc_none env l hconf
    simp only [hexc]
    simp [spawnEvsOf_cons, spawnEvsOf_append, spawnEvsOf_notify,
      runLoop_spawnEvs env l hconf, spawnEvsOf_nil]

theorem run_spawn_order_matches_config_witness :
    (∀ v ∈ [progA, progB], conformsProg v = true) ∧
    spawnEvsOf (ProgramLauncher.run idEnv st0 (.parsed (.jobj cfgAB))).1 =
      spawnTargets idEnv.expand [progA, progB] :=
  ⟨by decide,
   run_spawn_order_matches_config idEnv st0 cfgAB [progA, progB] rfl (by decide)⟩

/-- Claim C3: a descriptor whose `Enabled` field is `false` is skipped by
the run loop: its processing emits the disabled-skipping console log and
notification, contains no spawn attempt and no sleep, and the loop
continues with the remaining descriptors exactly as it would from the
post-notification state. -/
theorem disabled_descriptor_skipped (env : Env) (st : St)
    (p : List (String × JValue)) (rest : List JValue)
    (hdis : jget p "Enabled" = some (.jbool false)) :
    ∃ evs st₁,
      ProgramLauncher.runLoop env (.jobj p :: rest) st =
        (evs ++ (ProgramLauncher.runLoop env rest st₁).1,
         (ProgramLauncher.runLoop env rest st₁).2.1,
         (ProgramLauncher.runLoop env rest st₁).2.2) ∧
      spawnEvsOf evs = [] ∧ sleepEvsOf evs = [] ∧
      Event.log ("Program " ++ ProgramLauncher.progName p ++ " is disabled. Skipping.")
        ∈ evs ∧
      Event.toast "Startup Configurator"
        (ProgramLauncher.progName p ++ " is disabled. Skipping.") ∈ evs := by
  have hen : truthy (ProgramLauncher.is_program_enabled p) = false := by
    simp [ProgramLauncher.is_program_enabled, hdis, truthy]
  exact runLoop_disabled env st p rest hen

theorem disabled_descriptor_skipped_witness :
    jget progDisFields "Enabled" = some (.jbool false) ∧
    ∃ evs st₁,
      ProgramLauncher.runLoop idEnv (.jobj progDisFields :: [progB]) st0 =
        (evs ++ (ProgramLauncher.runLoop idEnv [progB] st₁).1,
         (ProgramLauncher.runLoop idEnv [progB] st₁).2.1,
         (ProgramLauncher.runLoop idEnv [progB] st₁).2.2) ∧
      spawnEvsOf evs = [] ∧ sleepEvsOf evs = [] ∧
      Event.log ("Program " ++ ProgramLauncher.progName progDisFields ++
        " is disabled. Skipping.") ∈ evs ∧
      Event.toast "Startup Configurator"
        (ProgramLauncher.progName progDisFields ++ " is disabled. Skipping.") ∈ evs :=
  ⟨rfl, disabled_descriptor_skipped idEnv st0 progDisFields [progB] rfl⟩

/-- Claim C4: for an enabled descriptor, (1) a missing or empty `Path`
makes `get_program_path` yield no path, and the loop body emits the
path-not-specified log and notification with no sleep and no spawn before
continuing with the rest; (2) when `Path` is a non-empty string, any spawn
attempt made while launching that descriptor targets exactly the
environment-variable expansion of that string. -/
theorem path_resolution_and_expansion (env : Env) (st : St)
    (p : List (String × JValue)) (rest : List JValue)
    (hen : truthy (ProgramLauncher.is_program_enabled p) = true) :
    ((jget p "Path" = none ∨ jget p "Path" = some (.jstr "")) →
      ProgramLauncher.get_program_path env.expand p = .ok none ∧
      ∃ evs st₁,
        ProgramLauncher.runLoop env (.jobj p :: rest) st =
          (evs ++ (ProgramLauncher.runLoop env rest st₁).1,
           (ProgramLauncher.runLoop env rest st₁).2.1,
           (ProgramLauncher.runLoop env rest st₁).2.2) ∧
        spawnEvsOf evs = [] ∧ sleepEvsOf evs = [] ∧
        Event.log ("Error: Path not specified for program " ++
          ProgramLauncher.progName p ++ ". Skipping.") ∈ evs ∧
        Event.toast "Launch Error" ("Path not specified for " ++
          ProgramLauncher.progName p ++ ". Skipping.") ∈ evs) ∧
    (∀ s, jget p "Path" = some (.jstr s) → s ≠ "" →
      ∀ pth, Event.spawnEv pth ∈ (ProgramLauncher.launch_program env st p).1 →
        pth = env.expand s) := by
  constructor
  · intro hpath
    have hgp : ProgramLauncher.get_program_path env.expand p = .ok none := by
      rcases hpath with h | h <;> simp [ProgramLauncher.get_program_path, h, truthy]
    refine ⟨hgp, Event.log ("Error: Path not specified for program " ++
        ProgramLauncher.progName p ++ ". Skipping.")
        :: (ProgramLauncher.notify env st "Launch Error"
          ("Path not specified for " ++ ProgramLauncher.progName p ++ ". Skipping.")).1,
      (ProgramLauncher.notify env st "Launch Error"
          ("Path not specified for " ++ ProgramLauncher.progName p ++ ". Skipping.")).2.1,
      ?_, ?_, ?_, ?_, ?_⟩
    · have hlp : ProgramLauncher.launch_program env st p =
        (Event.log ("Error: Path not specified for program " ++
            ProgramLauncher.progName p ++ ". Skipping.")
          :: (ProgramLauncher.notify env st "Launch Error"
            ("Path not specified for " ++ ProgramLauncher.progName p ++ ". Skipping.")).1,
         (ProgramLauncher.notify env st "Launch Error"
            ("Path not specified for " ++ ProgramLauncher.progName p ++ ". Skipping.")).2.1,
         none) := by
        unfold ProgramLauncher.launch_program
        simp [hgp]
      simp only [ProgramLauncher.runLoop, hen, if_true, hlp]
    · simp [spawnEvsOf_cons, spawnEvsOf_notify]
    · simp [sleepEvsOf_cons, sleepEvsOf_notify]
    · simp
    · simp [toast_mem_notify]
  · intro s hp hs pth hmem
    unfold ProgramLauncher.launch_program at hmem
    simp only [ProgramLauncher.get_program_path, hp, truthy, bne_iff_ne, ne_eq, hs,
      not_false_iff, if_true] at hmem
    by_cases he : env.expand s = ""
    · simp only [he, Option.getD_some, if_pos rfl] at hmem
      rcases List.mem_cons.mp hmem with h | h
      · cases h
      · exact absurd h (spawnEv_not_mem_notify env st _ _ pth)
    · simp only [Option.getD_some, he, if_false] at hmem
      cases hsc : ProgramLauncher.sleepCheck (ProgramLauncher.get_program_delay p) with
      | error e =>
          rw [hsc] at hmem
          simp at hmem
      | ok dq =>
          rw [hsc] at hmem
          cases hsp : env.spawnOut st.spawns <;> rw [hsp] at hmem <;>
            simp [spawnEv_not_mem_notify] at hmem <;> exact hmem

theorem path_resolution_and_expansion_witness :
    truthy (ProgramLauncher.is_program_enabled progNoPathFields) = true ∧
    (ProgramLauncher.get_program_path idEnv.expand progNoPathFields = .ok none ∧
      ∃ evs st₁,
        ProgramLauncher.runLoop idEnv (.jobj progNoPathFields :: [progB]) st0 =
          (evs ++ (ProgramLauncher.runLoop idEnv [progB] st₁).1,
           (ProgramLauncher.runLoop idEnv [progB] st₁).2.1,
           (ProgramLauncher.runLoop idEnv [progB] st₁).2.2) ∧
        spawnEvsOf evs = [] ∧ sleepEvsOf evs = [] ∧
        Event.log ("Error: Path not specified for program " ++
          ProgramLauncher.progName progNoPathFields ++ ". Skipping.") ∈ evs ∧
        Event.toast "Launch Error" ("Path not specified for " ++
          ProgramLauncher.progName progNoPathFields ++ ". Skipping.") ∈ evs) ∧
    "C:\\a.exe" = idEnv.expand "C:\\a.exe" :=
  ⟨rfl,
   (path_resolution_and_expansion idEnv st0 progNoPathFields [progB] rfl).1 (Or.inl rfl),
   (path_resolution_and_expansion idEnv st0 progAFields [] rfl).2 "C:\\a.exe" rfl
     (by decide) "C:\\a.exe" (by decide)⟩

/-- Claim C5: whenever reading the configuration fails (missing source,
unparsable content, any other read error, or a parsed top level on which
the `Programs` lookup raises), `run` makes no spawn attempt, reports the
abort on the console and via the notifier, and returns normally without
raising. -/
theorem read_failure_aborts_without_spawns (env : Env) (st : St)
    (src : ConfigSource) (hfail : readFails src = true) :
    (ProgramLauncher.run env st src).2.2 = none ∧
    spawnEvsOf (ProgramLauncher.run env st src).1 = [] ∧
    Event.log "Failed to read configuration. Aborting."
      ∈ (ProgramLauncher.run env st src).1 ∧
    Event.toast "Startup Configurator" "Failed to read configuration. Aborting."
      ∈ (ProgramLauncher.run env st src).1 := by
  cases src with
  | missing =>
      refine ⟨?_, ?_, ?_, ?_⟩ <;>
        simp [ProgramLauncher.run, ProgramLauncher.read_config, spawnEvsOf_cons,
          spawnEvsOf_append, spawnEvsOf_notify, spawnEvsOf_nil, toast_mem_notify]
  | malformed =>
      refine ⟨?_, ?_, ?_, ?_⟩ <;>
        simp [ProgramLauncher.run, ProgramLauncher.read_config, spawnEvsOf_cons,
          spawnEvsOf_append, spawnEvsOf_notify, spawnEvsOf_nil, toast_mem_notify]
  | ioError m =>
      refine ⟨?_, ?_, ?_, ?_⟩ <;>
        simp [ProgramLauncher.run, ProgramLauncher.read_config, spawnEvsOf_cons,
          spawnEvsOf_append, spawnEvsOf_notify, spawnEvsOf_nil, toast_mem_notify]
  | parsed t =>
      cases t with
      | jobj kvs => simp [readFails] at hfail
      | jnull =>
          refine ⟨?_, ?_, ?_, ?_⟩ <;>
            simp [ProgramLauncher.run, ProgramLauncher.read_config, spawnEvsOf_cons,
              spawnEvsOf_append, spawnEvsOf_notify, spawnEvsOf_nil, toast_mem_notify]
      | jbool b =>
          refine ⟨?_, ?_, ?_, ?_⟩ <;>
            simp [ProgramLauncher.run, ProgramLauncher.read_config, spawnEvsOf_cons,
              spawnEvsOf_append, spawnEvsOf_notify, spawnEvsOf_nil, toast_mem_notify]
      | jnum q =>
          refine ⟨?_, ?_, ?_, ?_⟩ <;>
            simp [ProgramLauncher.run, ProgramLauncher.read_config, spawnEvsOf_cons,
              spawnEvsOf_append, spawnEvsOf_notify, spawnEvsOf_nil, toast_mem_notify]
      | jstr s =>
          refine ⟨?_, ?_, ?_, ?_⟩ <;>
            simp [ProgramLauncher.run, ProgramLauncher.read_config, spawnEvsOf_cons,
              spawnEvsOf_append, spawnEvsOf_notify, spawnEvsOf_nil, toast_mem_notify]
      | jarr l =>
          refine ⟨?_, ?_, ?_, ?_⟩ <;>
            simp [ProgramLauncher.run, ProgramLauncher.read_config, spawnEvsOf_cons,
              spawnEvsOf_append, spawnEvsOf_notify, spawnEvsOf_nil, toast_mem_notify]

theorem read_failure_aborts_without_spawns_witness :
    readFails .missing = true ∧
    (ProgramLauncher.run idEnv st0 .missing).2.2 = none ∧
    spawnEvsOf (ProgramLauncher.run idEnv st0 .missing).1 = [] ∧
    Event.log "Failed to read configuration. Aborting."
      ∈ (ProgramLauncher.run idEnv st0 .missing).1 ∧
    Event.toast "Startup Configurator" "Failed to read configuration. Aborting."
      ∈ (ProgramLauncher.run idEnv st0 .missing).1 :=
  ⟨rfl, read_failure_aborts_without_spawns idEnv st0 .missing rfl⟩

/-- Claim C6: a parsed configuration object with no `Programs` key, or with
`Programs` equal to the empty list, is treated as an empty program list:
`run` makes no spawn attempt, reports that no programs were found on the
console and via the notifier, and terminates normally. -/
theorem empty_programs_reported_no_spawns (env : Env) (st : St)
    (kvs : List (String × JValue))
    (hprog : jget kvs "Programs" = none ∨ jget kvs "Programs" = some (.jarr [])) :
    (ProgramLauncher.run env st (.parsed (.jobj kvs))).2.2 = none ∧
    spawnEvsOf (ProgramLauncher.run env st (.parsed (.jobj kvs))).1 = [] ∧
    Event.log "No programs found in the configuration file."
      ∈ (ProgramLauncher.run env st (.parsed (.jobj kvs))).1 ∧
    Event.toast "Startup Configurator" "No programs found in configuration."
      ∈ (ProgramLauncher.run env st (.parsed (.jobj kvs))).1 := by
  rcases hprog with h | h <;>
    refine ⟨?_, ?_, ?_, ?_⟩ <;>
      simp [ProgramLauncher.run, ProgramLauncher.read_config, h, truthy, spawnEvsOf_cons,
        spawnEvsOf_append, spawnEvsOf_notify, spawnEvsOf_nil, toast_mem_notify]

theorem empty_programs_reported_no_spawns_witness :
    jget cfgNoProgs "Programs" = none ∧
    (ProgramLauncher.run idEnv st0 (.parsed (.jobj cfgNoProgs))).2.2 = none ∧
    spawnEvsOf (ProgramLauncher.run idEnv st0 (.parsed (.jobj cfgNoProgs))).1 = [] ∧
    Event.log "No programs found in the configuration file."
      ∈ (ProgramLauncher.run idEnv st0 (.parsed (.jobj cfgNoProgs))).1 ∧
    Event.toast "Startup Configurator" "No programs found in configuration."
      ∈ (ProgramLauncher.run idEnv st0 (.parsed (.jobj cfgNoProgs))).1 :=
  ⟨rfl, empty_programs_reported_no_spawns idEnv st0 cfgNoProgs (Or.inl rfl)⟩

/-- Claim C7, counterexample: a configuration whose `Programs` list holds a
bare number makes the loop body raise `AttributeError`; `main` catches it,
prints the `Fatal error` diagnostic, waits for Enter — and the process still
exits with code 0, not the non-zero exit the claim requires for a fatal
unhandled condition. -/
theorem fatal_error_exit_code_zero_cex :
    (ProgramLauncher.run idEnv st0 badCfg).2.2 =
      some (.attributeError "jvalue has no attribute get") ∧
    Event.log "Fatal error: jvalue has no attribute get"
      ∈ (startProgramsMain idEnv st0 badCfg).1 ∧
    (startProgramsMain idEnv st0 badCfg).2.2 = 0 :=
  ⟨rfl, by decide, rfl⟩

/-- Claim C7, amended: the orchestrator process exits with code 0 on every
input — whether launches failed, the configuration was unreadable, or a
fatal condition escaped the run loop.  A fatal condition still produces the
`Fatal error` diagnostic on the console, but the exit code remains 0 rather
than non-zero, because `main` catches every exception and returns
normally. -/
theorem orchestrator_always_exits_zero (env : Env) (st : St) (src : ConfigSource) :
    (startProgramsMain env st src).2.2 = 0 ∧
    ∀ e, (ProgramLauncher.run env st src).2.2 = some e →
      Event.log ("Fatal error: " ++ e.msg) ∈ (startProgramsMain env st src).1 := by
  constructor
  · unfold startProgramsMain
    cases h : (ProgramLauncher.run env st src).2.2 <;> simp [h]
  · intro e he
    unfold startProgramsMain
    simp [he]

theorem orchestrator_always_exits_zero_witness :
    (startProgramsMain idEnv st0 badCfg).2.2 = 0 ∧
    (ProgramLauncher.run idEnv st0 badCfg).2.2 =
      some (PyExc.attributeError "jvalue has no attribute get") ∧
    Event.log ("Fatal error: " ++
        (PyExc.attributeError "jvalue has no attribute get").msg)
      ∈ (startProgramsMain idEnv st0 badCfg).1 :=
  ⟨(orchestrator_always_exits_zero idEnv st0 badCfg).1, rfl,
   (orchestrator_always_exits_zero idEnv st0 badCfg).2 _ rfl⟩

/-- Claim C8, counterexample: in the registration component a notifier
failure is not swallowed.  With the registry write succeeding, a failing
success-toast flips `register`'s result from `True` to `False`; and when
the error toast fails as well, the exception propagates to `register`'s
caller.  (With a healthy notifier the same registration returns `True`.) -/
theorem register_notifier_failure_cex :
    (AutostartManager.register regOkEnv st0 "C:\\app.exe").2.2.2 = some true ∧
    (AutostartManager.register regNotifyFailEnv st0 "C:\\app.exe").2.2.2 = some false ∧
    (AutostartManager.register regNotifyAllFailEnv st0 "C:\\app.exe").2.2.1 =
      some (.runtimeError "toast failed") :=
  ⟨rfl, rfl, rfl⟩

/-- Claim C8, amended: notification-display failures are swallowed in the
launcher (`ProgramLauncher.notify`) and the uninstaller (`Uninstaller.notify`
and hence `unregister_autostart`) — logged at most, never raised to the
caller — but not in the registration component: `_show_notification` has no
handler there, so with a working registry a failing success-toast is caught
by `register`'s own catch-all and turns its result into `False`. -/
theorem notifier_failure_swallowing_scope :
    (∀ (env : Env) (st : St) (t m : String),
      (ProgramLauncher.notify env st t m).2.2 = none) ∧
    (∀ (env : UEnv) (st : St) (t m : String),
      (Uninstaller.notify env st t m).2.2 = none) ∧
    (∀ (env : UEnv) (st : St),
      (Uninstaller.unregister_autostart env st).2.2 = none) ∧
    (∀ (env : RegEnv) (st : St) (path : String), env.regFail = none →
      env.toastOut st.toasts ≠ none → env.toastOut (st.toasts + 1) = none →
      (AutostartManager.register env st path).2.2.2 = some false) := by
  refine ⟨?_, ?_, ?_, ?_⟩
  · intro env st t m
    unfold ProgramLauncher.notify show_toast
    cases h : env.toastOut st.toasts <;> simp [h]
  · intro env st t m
    unfold Uninstaller.notify show_toast
    cases h : env.toastOut st.toasts <;> simp [h]
  · intro env st
    unfold Uninstaller.unregister_autostart
    cases hd : env.deleteOut <;> rfl
  · intro env st path hreg hfail hok
    obtain ⟨m, hm⟩ := Option.ne_none_iff_exists'.mp hfail
    unfold AutostartManager.register
    rw [hreg]
    simp only [AutostartManager.show_notification, AutostartManager.show_error,
      show_toast, hm, hok, Option.map_some', Option.map_none']

theorem notifier_failure_swallowing_scope_witness :
    (ProgramLauncher.notify idEnv st0 "Startup Configurator" "msg").2.2 = none ∧
    (Uninstaller.notify uNotFoundEnv st0 "Autostart Uninstallation" "msg").2.2 = none ∧
    (Uninstaller.unregister_autostart uNotFoundEnv st0).2.2 = none ∧
    regNotifyFailEnv.regFail = none ∧
    regNotifyFailEnv.toastOut st0.toasts ≠ none ∧
    regNotifyFailEnv.toastOut (st0.toasts + 1) = none ∧
    (AutostartManager.register regNotifyFailEnv st0 "C:\\app.exe").2.2.2 = some false :=
  ⟨notifier_failure_swallowing_scope.1 idEnv st0 "Startup Configurator" "msg",
   notifier_failure_swallowing_scope.2.1 uNotFoundEnv st0 "Autostart Uninstallation" "msg",
   notifier_failure_swallowing_scope.2.2.1 uNotFoundEnv st0,
   rfl, by decide, rfl,
   notifier_failure_swallowing_scope.2.2.2 regNotifyFailEnv st0 "C:\\app.exe" rfl
     (by decide) rfl⟩

/-- Claim C9: when no autostart value with the application's name exists,
`unregister_autostart` raises nothing to its caller: it prints and notifies
that the entry was not found and there is nothing to uninstall, and returns
normally. -/
theorem unregister_missing_entry_nonfatal (env : UEnv) (st : St)
    (hnf : env.deleteOut = .notFound) :
    (Uninstaller.unregister_autostart env st).2.2 = none ∧
    Event.log "Autostart entry for WindowsStartupConfigurator not found in registry. Nothing to uninstall."
      ∈ (Uninstaller.unregister_autostart env st).1 ∧
    Event.toast "Autostart Uninstallation"
      "Autostart entry for WindowsStartupConfigurator not found. Nothing to uninstall."
      ∈ (Uninstaller.unregister_autostart env st).1 := by
  unfold Uninstaller.unregister_autostart
  rw [hnf]
  refine ⟨?_, ?_, ?_⟩ <;>
    cases h : env.toastOut st.toasts <;>
      simp [Uninstaller.notify, show_toast, h]

theorem unregister_missing_entry_nonfatal_witness :
    uNotFoundEnv.deleteOut = .notFound ∧
    (Uninstaller.unregister_autostart uNotFoundEnv st0).2.2 = none ∧
    Event.log "Autostart entry for WindowsStartupConfigurator not found in registry. Nothing to uninstall."
      ∈ (Uninstaller.unregister_autostart uNotFoundEnv st0).1 ∧
    Event.toast "Autostart Uninstallation"
      "Autostart entry for WindowsStartupConfigurator not found. Nothing to uninstall."
      ∈ (Uninstaller.unregister_autostart uNotFoundEnv st0).1 :=
  ⟨rfl, unregister_missing_entry_nonfatal uNotFoundEnv st0 rfl⟩

/-- Claim C10: a present `Enabled` key holding a falsy non-boolean value
(`null`, `0` or the empty string) makes the run loop treat the descriptor
as disabled — `program.get` returns the stored value, its truthiness is
false, and the descriptor is skipped with the disabled notification and no
spawn attempt — while the documented default of `True` applies exactly when
the `Enabled` key is absent. -/
theorem falsy_enabled_treated_as_disabled (env : Env) (st : St)
    (p : List (String × JValue)) (rest : List JValue) :
    ((jget p "Enabled" = some .jnull ∨ jget p "Enabled" = some (.jnum 0) ∨
        jget p "Enabled" = some (.jstr "")) →
      truthy (ProgramLauncher.is_program_enabled p) = false ∧
      ∃ evs st₁,
        ProgramLauncher.runLoop env (.jobj p :: rest) st =
          (evs ++ (ProgramLauncher.runLoop env rest st₁).1,
           (ProgramLauncher.runLoop env rest st₁).2.1,
           (ProgramLauncher.runLoop env rest st₁).2.2) ∧
        spawnEvsOf evs = [] ∧
        Event.toast "Startup Configurator"
          (ProgramLauncher.progName p ++ " is disabled. Skipping.") ∈ evs) ∧
    (jget p "Enabled" = none →
      ProgramLauncher.is_program_enabled p = .jbool true ∧
      truthy (ProgramLauncher.is_program_enabled p) = true) := by
  constructor
  · intro hfalsy
    have hen : truthy (ProgramLauncher.is_program_enabled p) = false := by
      rcases hfalsy with h | h | h <;>
        simp [ProgramLauncher.is_program_enabled, h, truthy]
    obtain ⟨evs, st₁, heq, hsp, hsl, hlog, htoast⟩ := runLoop_disabled env st p rest hen
    exact ⟨hen, evs, st₁, heq, hsp, htoast⟩
  · intro habs
    simp [ProgramLauncher.is_program_enabled, habs, truthy]

theorem falsy_enabled_treated_as_disabled_witness :
    jget progNullFields "Enabled" = some .jnull ∧
    (truthy (ProgramLauncher.is_program_enabled progNullFields) = false ∧
      ∃ evs st₁,
        ProgramLauncher.runLoop idEnv (.jobj progNullFields :: [progB]) st0 =
          (evs ++ (ProgramLauncher.runLoop idEnv [progB] st₁).1,
           (ProgramLauncher.runLoop idEnv [progB] st₁).2.1,
           (ProgramLauncher.runLoop idEnv [progB] st₁).2.2) ∧
        spawnEvsOf evs = [] ∧
        Event.toast "Startup Configurator"
          (ProgramLauncher.progName progNullFields ++ " is disabled. Skipping.") ∈ evs) ∧
    jget progBFields "Enabled" = none ∧
    (ProgramLauncher.is_program_enabled progBFields = .jbool true ∧
      truthy (ProgramLauncher.is_program_enabled progBFields) = true) :=
  ⟨rfl,
   (falsy_enabled_treated_as_disabled idEnv st0 progNullFields [progB]).1 (Or.inl rfl),
   rfl,
   (falsy_enabled_treated_as_disabled idEnv st0 progBFields []).2 rfl⟩
